import Mathlib

/-
  Verification development for the script-generator wizard component
  (src/Code.tsx). The definitions below are a shallow embedding of the
  functions and state transitions of the source file; theorems settle the
  specification claims against them.
-/

/-! ## JavaScript-style JSON values

A model of the dynamic values flowing through the response-normalization
code. Numbers are modelled as integers (only used in branches the claims
do not touch). -/

inductive JsonVal where
  | null
  | str (s : String)
  | num (n : Int)
  | bool (b : Bool)
  | obj (fields : List (String × JsonVal))
  | arr (elems : List JsonVal)

/-- The JavaScript typeof operator on our value model. Note typeof null is
the string object in JavaScript. -/
def jsTypeof : JsonVal → String
  | JsonVal.null => "object"
  | JsonVal.str _ => "string"
  | JsonVal.num _ => "number"
  | JsonVal.bool _ => "boolean"
  | JsonVal.obj _ => "object"
  | JsonVal.arr _ => "object"

/-- JavaScript truthiness: null, the empty string, 0 and false are falsy. -/
def jsTruthy : JsonVal → Bool
  | JsonVal.null => false
  | JsonVal.str s => s != ""
  | JsonVal.num n => n != 0
  | JsonVal.bool b => b
  | JsonVal.obj _ => true
  | JsonVal.arr _ => true

/-- Property access v.k: a field lookup on objects, undefined (none)
elsewhere. -/
def getProp : JsonVal → String → Option JsonVal
  | JsonVal.obj fields, k => (fields.find? (fun p => p.1 == k)).map (fun p => p.2)
  | _, _ => none

/-- typeof for a possibly-undefined value (none models undefined). -/
def optTypeof : Option JsonVal → String
  | none => "undefined"
  | some v => jsTypeof v

/-- Truthiness for a possibly-undefined value. -/
def optTruthy : Option JsonVal → Bool
  | none => false
  | some v => jsTruthy v

/-- Chained property access r.k on a possibly-undefined base. -/
def optGetProp (r : Option JsonVal) (k : String) : Option JsonVal :=
  match r with
  | none => none
  | some v => getProp v k

/-- The JavaScript String() conversion, for the primitive fall-through
branch of normalizeResult. -/
def jsToString : JsonVal → String
  | JsonVal.null => "null"
  | JsonVal.str s => s
  | JsonVal.num n => toString n
  | JsonVal.bool b => if b then "true" else "false"
  | JsonVal.obj _ => "[object Object]"
  | JsonVal.arr _ => ""

/-- Embedding of normalizeResult (src/Code.tsx lines 504 to 523). The input
Option distinguishes undefined (none) from null. The branch order is the
branch order of the source: the string-result check, then the object-result
check, then the result.content check, then pass-through. -/
def normalizeResult (input : Option JsonVal) : JsonVal :=
  match input with
  | none => JsonVal.str ""
  | some JsonVal.null => JsonVal.str ""
  | some v =>
    if jsTypeof v = "string" then v
    else if jsTypeof v = "object" then
      if optTypeof (getProp v "result") = "string" then
        (getProp v "result").getD JsonVal.null
      else if optTruthy (getProp v "result") = true ∧
              optTypeof (getProp v "result") = "object" then
        (getProp v "result").getD JsonVal.null
      else if optTruthy (getProp v "result") = true ∧
              optTypeof (optGetProp (getProp v "result") "content") = "string" then
        (optGetProp (getProp v "result") "content").getD JsonVal.null
      else v
    else JsonVal.str (jsToString v)

/-! ## String utilities

Kernel-computable models of the JavaScript string operations used by the
source (split on a single character, split on a regex character-class run,
trim, toLowerCase, includes). They operate on the underlying character
lists so that concrete witnesses evaluate by rfl or decide. -/

/-- Model of the JavaScript s.split(d) for a single-character separator d:
every occurrence separates, empty pieces are kept. -/
def jsSplitChar (d : Char) : List Char → List String
  | [] => [""]
  | c :: cs =>
    if c = d then "" :: jsSplitChar d cs
    else
      match jsSplitChar d cs with
      | [] => [String.mk [c]]
      | p :: ps => String.mk (c :: p.data) :: ps

/-- Model of the JavaScript s.split(re) where re matches one-or-more
characters satisfying isDelim: a maximal run of delimiters is a single
separator. The Bool flag records whether the previous character was part of
a delimiter run. -/
def jsSplitRunsAux (isDelim : Char → Bool) : Bool → String → List Char → List String
  | _, cur, [] => [cur]
  | inRun, cur, c :: cs =>
    if isDelim c then
      if inRun then jsSplitRunsAux isDelim true cur cs
      else cur :: jsSplitRunsAux isDelim true "" cs
    else jsSplitRunsAux isDelim false (cur.push c) cs

/-- Split a string on maximal runs of delimiter characters, keeping a
leading or trailing empty piece as JavaScript does. -/
def jsSplitRuns (isDelim : Char → Bool) (s : String) : List String :=
  jsSplitRunsAux isDelim false "" s.data

/-- Model of the JavaScript s.trim() (common ASCII whitespace). -/
def jsTrim (s : String) : String :=
  String.mk ((((s.data.dropWhile Char.isWhitespace).reverse).dropWhile Char.isWhitespace).reverse)

/-- Model of the JavaScript s.toLowerCase() (ASCII letters, which is all
the source relies on for its keyword checks). -/
def jsToLower (s : String) : String :=
  String.mk (s.data.map Char.toLower)

/-- Model of the JavaScript s.includes(sub). -/
def strContainsSub (s sub : String) : Bool :=
  (List.range (s.data.length + 1)).any (fun i => sub.data.isPrefixOf (s.data.drop i))

/-- Model of the JavaScript regex test for a single character. -/
def strContainsChar (s : String) (c : Char) : Bool :=
  s.data.any (fun x => x == c)

/-! ## ScoreEngine

Embedding of calculateScores (src/Code.tsx lines 734 to 781). Each local
of the source function becomes a definition. JavaScript float arithmetic is
modelled with exact rationals; the results agree on the decimal values the
claims touch. Division by zero yields 0 in the rational model where
JavaScript would yield NaN; the theorems therefore carry a hypothesis that
the expected word count is nonzero where it matters. -/

structure ScoreData where
  overall : Int
  creativity : Int
  engagement : Int
  clarity : Int
  timing : Int
deriving DecidableEq

/-- scriptText.split(" ").length: the word count of the source, which is 1
on the empty string because split returns one empty piece. -/
def wordCount (text : String) : Nat := (jsSplitChar ' ' text.data).length

/-- expectedWords = (scriptLength / 60) * 150. -/
def expectedWordsOf (scriptLength : ℚ) : ℚ := scriptLength / 60 * 150

/-- timingScore = max(0, 100 - |words - expectedWords| / expectedWords * 100). -/
def timingScoreOf (text : String) (scriptLength : ℚ) : ℚ :=
  max 0 (100 - |(wordCount text : ℚ) - expectedWordsOf scriptLength| /
    expectedWordsOf scriptLength * 100)

/-- Sentences: split on runs of period, exclamation or question mark, then
keep the pieces whose trim is nonempty. -/
def sentencesOf (text : String) : List String :=
  (jsSplitRuns (fun c => c == '.' || c == '!' || c == '?') text).filter
    (fun s => decide (0 < (jsTrim s).length))

/-- avgWordsPerSentence, defaulting to 15 when there are no sentences. -/
def avgWordsOf (text : String) : ℚ :=
  if 0 < (sentencesOf text).length then
    (wordCount text : ℚ) / ((sentencesOf text).length : ℚ)
  else 15

/-- clarityScore = max(0, 100 - |avgWordsPerSentence - 15| * 5). -/
def clarityScoreOf (text : String) : ℚ :=
  max 0 (100 - |avgWordsOf text - 15| * 5)

/-- hasCTA: call-to-action requested and the lowercased text includes one
of the keywords subscribe, follow, like. -/
def hasCTAOf (text : String) (ctaInclusion : Bool) : Bool :=
  ctaInclusion && (strContainsSub (jsToLower text) "subscribe" ||
    strContainsSub (jsToLower text) "follow" ||
    strContainsSub (jsToLower text) "like")

/-- engagementScore = 70 + 15 for a question mark + 15 for a CTA keyword. -/
def engagementScoreOf (text : String) (ctaInclusion : Bool) : ℚ :=
  70 + (if strContainsChar text '?' then 15 else 0) +
    (if hasCTAOf text ctaInclusion then 15 else 0)

/-- The character class of the JavaScript word regex. -/
def isWordCharJS (c : Char) : Bool := c.isAlphanum || c == '_'

/-- uniqueWords: the size of the set of lowercased tokens split on runs of
non-word characters (a Set collapses duplicates, modelled by dedup). -/
def uniqueWordCountJS (text : String) : Nat :=
  ((jsSplitRuns (fun c => !(isWordCharJS c)) (jsToLower text)).dedup).length

/-- creativityScore = min(100, uniqueWords / words * 200). -/
def creativityScoreOf (text : String) : ℚ :=
  min 100 ((uniqueWordCountJS text : ℚ) / (wordCount text : ℚ) * 200)

/-- Model of Math.round: the floor of x + 1/2 (JavaScript rounds half
toward positive infinity). -/
def jsRound (x : ℚ) : Int := Rat.floor (x + 1 / 2)

/-- The record written by setScoreData: each component rounded with
Math.round, overall the rounded mean of the four raw components. -/
def computeScores (text : String) (scriptLength : ℚ) (ctaInclusion : Bool) : ScoreData :=
  ⟨jsRound ((timingScoreOf text scriptLength + clarityScoreOf text +
      engagementScoreOf text ctaInclusion + creativityScoreOf text) / 4),
   jsRound (creativityScoreOf text),
   jsRound (engagementScoreOf text ctaInclusion),
   jsRound (clarityScoreOf text),
   jsRound (timingScoreOf text scriptLength)⟩

/-- scriptText extraction at the top of calculateScores: a string result is
used directly, otherwise the script field of the object (empty when absent;
a non-string script value would make the source throw on split and is
modelled as empty, a branch no claim touches). -/
def scriptTextOf (v : JsonVal) : String :=
  match v with
  | JsonVal.str s => s
  | _ =>
    match getProp v "script" with
    | some (JsonVal.str s) => s
    | _ => ""

/-- calculateScores including its early-return guard: the guard tests
JavaScript truthiness of apiResults, so a null result and the bare empty
string both skip scoring (none). -/
def calculateScores (apiResults : Option JsonVal) (scriptLength : ℚ)
    (ctaInclusion : Bool) : Option ScoreData :=
  match apiResults with
  | none => none
  | some v =>
    if jsTruthy v then some (computeScores (scriptTextOf v) scriptLength ctaInclusion)
    else none

/-! ## GenerationRequestPipeline: retry and error classification

Embedding of fetchWithRetry (src/Code.tsx lines 570 to 603) and
createApiError (lines 525 to 565). The network environment is a list of
outcomes, one per attempt the loop makes. The function returns the backoff
delays it slept, in order, together with the final result. -/

/-- One fetch attempt as seen by the loop: a response with a status code,
or a thrown exception carrying its name and message (name AbortError for a
timeout cancellation). -/
inductive FetchOutcome where
  | resp (status : Nat)
  | exc (name : String) (message : String)
deriving DecidableEq

/-- How fetchWithRetry finishes: a returned response, a rethrown
exception, or the environment ran out of outcomes (never used by the
theorems, which always supply enough outcomes). -/
inductive FetchResult where
  | ok (status : Nat)
  | thrown (name : String) (message : String)
  | noOutcome
deriving DecidableEq

/-- backoff = min(1000 * 2 ^ (i - 1), 8000), slept before attempt i > 0. -/
def backoffDelay (i : Nat) : Nat := min (1000 * 2 ^ (i - 1)) 8000

/-- The loop of fetchWithRetry: attempt index i runs from 0 to maxRetries;
a status of 500 or more is retried while attempts remain; an exception is
retried while attempts remain unless it is an abort; otherwise the
response is returned or the exception rethrown. -/
def fetchWithRetryGo : List FetchOutcome → Nat → Nat → List Nat → List Nat × FetchResult
  | [], _, _, delays => (delays, FetchResult.noOutcome)
  | o :: rest, i, maxRetries, delays =>
    let delays2 := if 0 < i then delays ++ [backoffDelay i] else delays
    match o with
    | FetchOutcome.resp status =>
      if 500 ≤ status ∧ i < maxRetries then fetchWithRetryGo rest (i + 1) maxRetries delays2
      else (delays2, FetchResult.ok status)
    | FetchOutcome.exc name msg =>
      if name ≠ "AbortError" ∧ i < maxRetries then fetchWithRetryGo rest (i + 1) maxRetries delays2
      else (delays2, FetchResult.thrown name msg)

/-- fetchWithRetry started at attempt 0 with no delays slept yet. -/
def fetchWithRetry (outcomes : List FetchOutcome) (maxRetries : Nat) : List Nat × FetchResult :=
  fetchWithRetryGo outcomes 0 maxRetries []

/-- A JavaScript Error as inspected by createApiError: its name and
message. -/
structure JsError where
  name : String
  message : String
deriving DecidableEq

/-- The four error kinds of the ApiError union type. -/
inductive ErrType where
  | network
  | timeout
  | server
  | unknown
deriving DecidableEq

/-- The ApiError record; the source field named type is called etype here
because type is a Lean keyword. -/
structure ApiError where
  etype : ErrType
  message : String
  retryable : Bool
deriving DecidableEq

/-- Embedding of createApiError: abort is a timeout, offline is a network
error, a message containing HTTP 5 is a retryable server error, a message
containing HTTP 4 is a non-retryable server error, anything else is
unknown and retryable (with a default message when the message is empty,
modelling the JavaScript or-default). -/
def createApiError (e : JsError) (navigatorOnLine : Bool) : ApiError :=
  if e.name = "AbortError" then
    ⟨ErrType.timeout, "The request timed out. Please try again in a moment.", true⟩
  else if navigatorOnLine = false then
    ⟨ErrType.network, "Internet connection lost. Please check your network.", true⟩
  else if strContainsSub e.message "HTTP 5" then
    ⟨ErrType.server, "The server is temporarily unavailable. Please try again shortly.", true⟩
  else if strContainsSub e.message "HTTP 4" then
    ⟨ErrType.server, "Bad request. Please check your input.", false⟩
  else
    ⟨ErrType.unknown,
     if e.message = "" then "Something went wrong. Please try again." else e.message,
     true⟩

/-! ## RefinementChatEngine: messages and history appends

Embedding of the chat-message bookkeeping of handleChatResponse
(src/Code.tsx lines 926 to 988) and of the first-question effect
(lines 1124 to 1201). Message ids and timestamps are environment-supplied
values (a counter and the clock) that no claim depends on, so they are
omitted from the message model. -/

inductive Speaker where
  | ai
  | user
deriving DecidableEq

structure ChatMessage where
  kind : Speaker
  content : String
  options : Option (List String)
deriving DecidableEq

def aiMsg (content : String) (opts : List String) : ChatMessage :=
  ⟨Speaker.ai, content, some opts⟩

def userMsg (content : String) : ChatMessage :=
  ⟨Speaker.user, content, none⟩

/-- Model of cleanTextForTyping restricted to plain-text questions: the
source first tries JSON.parse, which throws on non-JSON text and leaves it
unchanged (the JSON branch is not modelled; no claim depends on it), then
trims and strips control characters. -/
def cleanTextForTyping (text : String) : String :=
  String.mk ((jsTrim text).data.filter
    (fun c => !(c.toNat ≤ 31 || (127 ≤ c.toNat && c.toNat ≤ 159))))

/-- The response shape of the refinement-question service call:
question string or null, plus options. -/
structure QuestionResp where
  question : Option String
  options : List String
deriving DecidableEq

/-- fetchNextQuestion (src/Code.tsx lines 668 to 723) seen from its
callers: a successful call returns the parsed data; any failure, including
a timeout abort or a non-ok status, is caught and degrades to a
null-question response. It never rejects and never touches apiError. -/
def questionFetchResult (env : Except JsError QuestionResp) : QuestionResp :=
  match env with
  | Except.ok data => data
  | Except.error _ => ⟨none, []⟩

/-- Array.prototype.slice(-49): the most recent 49 elements. -/
def sliceLast (n : Nat) (l : List α) : List α := l.drop (l.length - n)

/-- nextQ.question is truthy: present and nonempty. -/
def questionTruthy (r : QuestionResp) : Bool :=
  match r.question with
  | some q => q != ""
  | none => false

/-- The closing acknowledgement typed when the service signals no more
questions. -/
def closingText : String := "Great! Generating the final script…"

/-- The chat-history effect of one answered turn in handleChatResponse:
the user turn is appended after slicing the history to its most recent 49
entries; then either the next question or the closing acknowledgement is
appended as an assistant turn with no slicing. The options-clearing map on
the answered message does not change the history length and is keyed by
message id, which is not modelled. -/
def chatRound (msgs : List ChatMessage) (answer : String) (resp : QuestionResp) : List ChatMessage :=
  let afterUser := sliceLast 49 msgs ++ [userMsg answer]
  if questionTruthy resp then
    afterUser ++ [aiMsg (cleanTextForTyping (resp.question.getD ""))
      (resp.options.filter (fun o => o != ""))]
  else
    afterUser ++ [⟨Speaker.ai, closingText, none⟩]

/-- A refinement session as far as the history is concerned: the first
question set by the entry effect, then one chatRound per answered turn. -/
def chatSession (firstQ : String) (rounds : List (String × QuestionResp)) : List ChatMessage :=
  rounds.foldl (fun msgs r => chatRound msgs r.1 r.2) [aiMsg (cleanTextForTyping firstQ) []]

/-! ## WizardController

Embedding of the step machine. The source type Step is the numeric union
1 | 2 | 3 | 3.5 | 4; it is embedded as a five-variant enum together with
its numeric value Step.toRat, and every numeric test of the source is
translated through that value. The lemmas stepPlusOne_toRat,
stepMinusOne_toRat, toRat_lt_four_iff and one_lt_toRat_iff certify that the
enum-level transitions agree with the numeric arithmetic of the source on
the guarded domains. -/

inductive Step where
  | style
  | topic
  | settings
  | refinement
  | result
deriving DecidableEq

/-- The numeric value of each step in the source: 1, 2, 3, 3.5, 4. -/
def Step.toRat : Step → ℚ
  | Step.style => 1
  | Step.topic => 2
  | Step.settings => 3
  | Step.refinement => 3.5
  | Step.result => 4

/-- currentStep + 1 on the domain where the source evaluates it (the
increment branch of handleNext, guarded to exclude 3.5 and values of 4 or
more; on the excluded variants this function is the identity and is never
used there). -/
def stepPlusOne : Step → Step
  | Step.style => Step.topic
  | Step.topic => Step.settings
  | Step.settings => Step.result
  | Step.refinement => Step.refinement
  | Step.result => Step.result

/-- currentStep - 1 on the domain where the source evaluates it (the
decrement branch of handleBack, guarded to exclude 3.5 and values of 1 or
less; note 4 - 1 = 3, so Result steps back to Settings). -/
def stepMinusOne : Step → Step
  | Step.style => Step.style
  | Step.topic => Step.style
  | Step.settings => Step.topic
  | Step.refinement => Step.refinement
  | Step.result => Step.settings

/-- The position of each step in the five-step order of the specification:
Style, Topic, Settings, Refinement, Result. -/
def stepIdx : Step → Nat
  | Step.style => 0
  | Step.topic => 1
  | Step.settings => 2
  | Step.refinement => 3
  | Step.result => 4

/-- The wizard state: the fields of the source component that the claims
concern. -/
structure WState where
  step : Step
  selectedStyle : String
  customStyleName : String
  broadTopic : String
  keyword : String
  scriptLength : ℚ
  selectedLanguage : String
  selectedTone : String
  ctaInclusion : Bool
  chatMessages : List ChatMessage
  skipRefinement : Bool
  showSkipConfirm : Bool
  questionFetchFailed : Bool
  hasAttemptedQuestionFetch : Bool
  apiResults : Option JsonVal
  isLoading : Bool
  apiError : Option ApiError
  scoreData : Option ScoreData
  hasUnsavedChanges : Bool

/-- The initial state of the component (the useState defaults). -/
def initState : WState :=
  ⟨Step.style, "", "", "", "", 45, "Select", "Select", false, [],
   false, false, false, false, none, false, none, none, false⟩

/-- handleNext (src/Code.tsx lines 1314 to 1322): at Settings (3) it
enters Refinement (3.5) and resets the refinement flags; otherwise, when
the step is below 4 and not 3.5, it increments the step. -/
def handleNext (s : WState) : WState :=
  if s.step = Step.settings then
    {s with step := Step.refinement, questionFetchFailed := false,
            hasAttemptedQuestionFetch := false}
  else if s.step ≠ Step.result ∧ s.step ≠ Step.refinement then
    {s with step := stepPlusOne s.step}
  else s

/-- handleBack (src/Code.tsx lines 1324 to 1334): at Refinement (3.5) it
returns to Settings (3) and clears the conversation history, the skip
flag, the question-fetch-failed flag and the has-attempted-fetch flag;
otherwise, when the step is above 1, it decrements the step. -/
def handleBack (s : WState) : WState :=
  if s.step = Step.refinement then
    {s with step := Step.settings, chatMessages := [], skipRefinement := false,
            questionFetchFailed := false, hasAttemptedQuestionFetch := false}
  else if s.step ≠ Step.style then
    {s with step := stepMinusOne s.step}
  else s

/-- apiResults is falsy: absent, null, the empty string, zero or false. -/
def jsFalsyOpt (o : Option JsonVal) : Bool :=
  match o with
  | none => true
  | some v => !jsTruthy v

/-- The clearing performed at the top of fetchFinalScriptRef.current
(src/Code.tsx lines 1003 to 1010): a fresh generation request starts
loading and clears the previous error, result and score. -/
def startFinalFetch (s : WState) : WState :=
  {s with isLoading := true, apiError := none, apiResults := none, scoreData := none}

/-- The static fallback assistant message of the first-question effect. -/
def fallbackText : String :=
  "Unable to generate refinement questions. You can skip this step."

/-- The first-question effect for step 3.5 (src/Code.tsx lines 1124 to
1201), modelled at completion of the fetch: gated on being at Refinement
with an empty history, not loading, and not having attempted the fetch. A
valid nonempty question becomes the single assistant message; otherwise
the static fallback message is shown and questionFetchFailed is set. The
attempt flag is recorded in both cases and apiError is never written. -/
def effect35 (s : WState) (env : Except JsError QuestionResp) : WState :=
  if s.step = Step.refinement ∧ s.chatMessages.length = 0 ∧ s.isLoading = false ∧
      s.hasAttemptedQuestionFetch = false then
    let firstQ := questionFetchResult env
    let s1 := {s with hasAttemptedQuestionFetch := true}
    match firstQ.question with
    | some q =>
      if jsTrim q ≠ "" then
        {s1 with isLoading := false,
                 chatMessages := [aiMsg (cleanTextForTyping q)
                   (firstQ.options.filter (fun o => o != ""))]}
      else
        {s1 with isLoading := false, questionFetchFailed := true,
                 chatMessages := [aiMsg fallbackText []]}
    | none =>
        {s1 with isLoading := false, questionFetchFailed := true,
                 chatMessages := [aiMsg fallbackText []]}
  else s

/-- handleChatResponse at the state level: appends the answered turn via
chatRound and, when the service signals no more questions, schedules the
transition to Result. Only invokable from the Refinement chat view. -/
def handleChatResponse (s : WState) (answer : String) (resp : QuestionResp) : WState :=
  if s.step = Step.refinement then
    {s with chatMessages := chatRound s.chatMessages answer resp,
            step := if questionTruthy resp then s.step else Step.result}
  else s

/-- The events that drive the wizard: user actions, the React effects, and
completions of the asynchronous work. -/
inductive Event where
  | setStyle (v : String)
  | setCustomStyleName (v : String)
  | setKeyword (v : String)
  | setTone (v : String)
  | setLanguage (v : String)
  | setCta (b : Bool)
  | next
  | back
  | skipClick
  | confirmSkip
  | refineFetch (env : Except JsError QuestionResp)
  | chatAnswer (answer : String) (resp : QuestionResp)
  | step4Effect
  | resultArrived (r : JsonVal)
  | generationFailed (e : ApiError)
  | scoreEffect

/-- The transition function. step4Effect is the generation-trigger effect
(src/Code.tsx lines 1118 to 1122), gated on being at Result with a falsy
result and not loading; resultArrived and generationFailed are the two
completions of the pipeline call; scoreEffect is the score recomputation
effect (lines 783 to 787); confirmSkip is src/Code.tsx lines 994 to 998. -/
def applyEvent (s : WState) : Event → WState
  | Event.setStyle v => {s with selectedStyle := v}
  | Event.setCustomStyleName v => {s with customStyleName := v}
  | Event.setKeyword v => {s with keyword := v}
  | Event.setTone v => {s with selectedTone := v}
  | Event.setLanguage v => {s with selectedLanguage := v}
  | Event.setCta b => {s with ctaInclusion := b}
  | Event.next => handleNext s
  | Event.back => handleBack s
  | Event.skipClick => {s with showSkipConfirm := true}
  | Event.confirmSkip => {s with skipRefinement := true, showSkipConfirm := false,
                                 step := Step.result}
  | Event.refineFetch env => effect35 s env
  | Event.chatAnswer answer resp => handleChatResponse s answer resp
  | Event.step4Effect =>
      if s.step = Step.result ∧ jsFalsyOpt s.apiResults = true ∧ s.isLoading = false then
        startFinalFetch s
      else s
  | Event.resultArrived r =>
      if s.isLoading then {s with apiResults := some r, isLoading := false} else s
  | Event.generationFailed e =>
      if s.isLoading then {s with apiError := some e, isLoading := false} else s
  | Event.scoreEffect =>
      if jsFalsyOpt s.apiResults = false ∧ s.step = Step.result then
        match calculateScores s.apiResults s.scriptLength s.ctaInclusion with
        | some d => {s with scoreData := some d}
        | none => s
      else s

/-- A session: the fold of events from the initial state. -/
def run (events : List Event) : WState :=
  events.foldl applyEvent initState

/-! ## SessionStore

Embedding of the restore effect (src/Code.tsx lines 429 to 464). -/

/-- The persisted snapshot: the enumerated fields plus the capture
timestamp, which may be absent (no schema version; a missing field is
modelled as none). -/
structure Snapshot where
  timestamp : Option Int
  currentStep : Step
  selectedStyle : String
  customStyleName : String
  broadTopic : String
  keyword : String
  scriptLength : ℚ
  selectedLanguage : String
  selectedTone : String
  ctaInclusion : Bool
  chatMessages : List ChatMessage

/-- The restore effect: nothing saved, a missing timestamp, a zero
timestamp (falsy in JavaScript) or an age of one hour or more leaves the
fresh defaults in place; otherwise the snapshot fields repopulate the
state and the session is marked as having unsaved changes. -/
def restoreSession (saved : Option Snapshot) (now : Int) (s : WState) : WState :=
  match saved with
  | none => s
  | some st =>
    match st.timestamp with
    | none => s
    | some ts =>
      if ts = 0 then s
      else if now - ts < 3600000 then
        {s with step := st.currentStep, selectedStyle := st.selectedStyle,
                customStyleName := st.customStyleName, broadTopic := st.broadTopic,
                keyword := st.keyword, scriptLength := st.scriptLength,
                selectedLanguage := st.selectedLanguage, selectedTone := st.selectedTone,
                ctaInclusion := st.ctaInclusion, chatMessages := st.chatMessages,
                hasUnsavedChanges := true}
      else s

/-! ## Bridging lemmas for the step encoding

These certify that the enum-level guards and arithmetic used in handleNext
and handleBack agree with the numeric tests of the source. -/

/-- The source guard (currentStep as number) < 4 holds exactly for the
steps other than Result. -/
theorem toRat_lt_four_iff (p : Step) : p.toRat < 4 ↔ p ≠ Step.result := by
  cases p <;> simp [Step.toRat] <;> norm_num

/-- The source guard (currentStep as number) > 1 holds exactly for the
steps other than Style. -/
theorem one_lt_toRat_iff (p : Step) : 1 < p.toRat ↔ p ≠ Step.style := by
  cases p <;> simp [Step.toRat] <;> norm_num

/-- On the domain of the increment branch, stepPlusOne is the numeric
currentStep + 1 of the source. -/
theorem stepPlusOne_toRat (p : Step) (h1 : p ≠ Step.refinement) (h2 : p ≠ Step.result) :
    (stepPlusOne p).toRat = p.toRat + 1 := by
  cases p <;> simp_all [stepPlusOne, Step.toRat] <;> norm_num

/-- On the domain of the decrement branch, stepMinusOne is the numeric
currentStep - 1 of the source; in particular Result (4) steps back to
Settings (3). -/
theorem stepMinusOne_toRat (p : Step) (h1 : p ≠ Step.refinement) (h2 : p ≠ Step.style) :
    (stepMinusOne p).toRat = p.toRat - 1 := by
  cases p <;> simp_all [stepMinusOne, Step.toRat] <;> norm_num

/-! ## Claim theorems -/

/-- C1 (amended): a bare string passes through normalization unchanged; an
object whose result field is a string yields that string; an object whose
result field is an object yields that object, and this branch also
captures an object whose result.content is a string, so the input with
result.content the string z yields the object containing content z, not
the bare string z; an object without a result field is returned
unchanged. -/
theorem c1_normalize_amended :
    (∀ s : String, normalizeResult (some (JsonVal.str s)) = JsonVal.str s) ∧
    (∀ fields s, getProp (JsonVal.obj fields) "result" = some (JsonVal.str s) →
      normalizeResult (some (JsonVal.obj fields)) = JsonVal.str s) ∧
    (∀ fields g, getProp (JsonVal.obj fields) "result" = some (JsonVal.obj g) →
      normalizeResult (some (JsonVal.obj fields)) = JsonVal.obj g) ∧
    (normalizeResult (some (JsonVal.obj [("result", JsonVal.obj [("content", JsonVal.str "z")])])) =
      JsonVal.obj [("content", JsonVal.str "z")]) ∧
    (∀ fields, getProp (JsonVal.obj fields) "result" = none →
      normalizeResult (some (JsonVal.obj fields)) = JsonVal.obj fields) := by
  refine ⟨fun s => rfl, ?_, ?_, rfl, ?_⟩
  · intro fields s h
    simp [normalizeResult, h, optTypeof, jsTypeof, optTruthy, jsTruthy, optGetProp]
  · intro fields g h
    simp [normalizeResult, h, optTypeof, jsTypeof, optTruthy, jsTruthy, optGetProp]
  · intro fields h
    simp [normalizeResult, h, optTypeof, jsTypeof, optTruthy, jsTruthy, optGetProp]

/-- C1 (counterexample): the claim says normalizeResult of the object with
result.content the string z yields the string z; the source checks for an
object-valued result field before the result.content branch, so the
object containing content z is returned instead, and the result is not the
string z. -/
theorem c1_normalize_counterexample :
    normalizeResult (some (JsonVal.obj [("result", JsonVal.obj [("content", JsonVal.str "z")])])) =
      JsonVal.obj [("content", JsonVal.str "z")] ∧
    normalizeResult (some (JsonVal.obj [("result", JsonVal.obj [("content", JsonVal.str "z")])])) ≠
      JsonVal.str "z" :=
  ⟨rfl, fun h => JsonVal.noConfusion h⟩

/-- C1 (witness): the amended theorem applied to the concrete envelope
with a string result field. -/
theorem c1_normalize_witness :
    getProp (JsonVal.obj [("result", JsonVal.str "x")]) "result" = some (JsonVal.str "x") ∧
    normalizeResult (some (JsonVal.obj [("result", JsonVal.str "x")])) = JsonVal.str "x" :=
  ⟨rfl, c1_normalize_amended.2.1 [("result", JsonVal.str "x")] "x" rfl⟩

/-- C10: normalizeResult maps undefined and null both to the empty string,
so an absent response body normalizes to an empty text rather than
propagating a nullish value. -/
theorem c10_normalize_nullish :
    normalizeResult none = JsonVal.str "" ∧ normalizeResult (some JsonVal.null) = JsonVal.str "" :=
  ⟨rfl, rfl⟩

/-- jsRound agrees with the mathematical floor of x + 1/2. -/
theorem jsRound_eq (x : ℚ) : jsRound x = ⌊x + 1 / 2⌋ := by
  unfold jsRound
  rw [Rat.floor_def']
  exact Rat.floor_def.symm

/-- The scores computed for the empty script text at the default length of
45 seconds without a call to action: the split of the empty string counts
one word, so the timing component is 100 - (111.5 / 112.5) * 100, which
rounds to 1; there are no sentences, so clarity defaults to the ideal 100;
engagement is the base 70; the single empty token gives a vocabulary ratio
of 200, capped to 100; the overall mean rounds to 68. -/
theorem computeScores_empty : computeScores "" 45 false = ⟨68, 100, 70, 100, 1⟩ := by
  have hw : wordCount "" = 1 := rfl
  have hs : sentencesOf "" = [] := rfl
  have hu : uniqueWordCountJS "" = 1 := rfl
  have hq : strContainsChar "" '?' = false := rfl
  have hc : hasCTAOf "" false = false := rfl
  unfold computeScores timingScoreOf clarityScoreOf engagementScoreOf creativityScoreOf
    avgWordsOf expectedWordsOf
  rw [hw, hs, hu, hq, hc]
  norm_num [jsRound_eq, max_def, abs]

/-- C2 (amended): a script of exactly expectedWordCount words has a timing
score of 100; but an empty script is not scored as 0: a bare empty-string
result is skipped entirely by the truthiness guard, and an object result
with an empty script field is scored with a word count of 1 (the split of
the empty string yields one empty piece), giving an overall score of 68 at
the default 45-second length. -/
theorem c2_score_amended :
    (∀ text len cta, (wordCount text : ℚ) = expectedWordsOf len → expectedWordsOf len ≠ 0 →
      (computeScores text len cta).timing = 100) ∧
    calculateScores (some (JsonVal.str "")) 45 false = none ∧
    calculateScores (some (JsonVal.obj [("script", JsonVal.str "")])) 45 false =
      some ⟨68, 100, 70, 100, 1⟩ := by
  refine ⟨?_, rfl, ?_⟩
  · intro text len cta h hne
    show jsRound (timingScoreOf text len) = 100
    unfold timingScoreOf
    rw [h, sub_self, abs_zero, zero_div, zero_mul, sub_zero]
    rw [max_eq_right (by norm_num : (0:ℚ) ≤ 100)]
    rw [jsRound_eq]
    norm_num
  · show some (computeScores "" 45 false) = _
    rw [computeScores_empty]

/-- C2 (counterexample): the claim says an empty script scores 0 overall;
running the scoring on the empty script text yields 68, not 0. -/
theorem c2_score_counterexample :
    (computeScores "" 45 false).overall = 68 ∧ (computeScores "" 45 false).overall ≠ 0 := by
  rw [computeScores_empty]
  exact ⟨rfl, by decide⟩

/-- A script of exactly 150 words, matching the expected word count of a
60-second target at 150 words per minute. -/
def sample150 : String := String.intercalate " " (List.replicate 150 "go")

set_option maxRecDepth 4000 in
/-- C2 (witness): the amended timing statement applied to the concrete
150-word script at the 60-second length. -/
theorem c2_score_witness :
    ((wordCount sample150 : ℚ) = expectedWordsOf 60 ∧ expectedWordsOf 60 ≠ 0) ∧
    (computeScores sample150 60 true).timing = 100 := by
  have hw : wordCount sample150 = 150 := rfl
  have h1 : (wordCount sample150 : ℚ) = expectedWordsOf 60 := by
    rw [hw]
    norm_num [expectedWordsOf]
  have h2 : expectedWordsOf 60 ≠ 0 := by norm_num [expectedWordsOf]
  exact ⟨⟨h1, h2⟩, c2_score_amended.1 sample150 60 true h1 h2⟩

/-- C5: the backoff delays before retry attempts 1, 2, 3 are exactly 1000,
2000 and 4000 milliseconds, capped at 8000 from attempt 4 on; a response
with status 500 or more is retried while attempts remain (shown both as
the general one-step rule and on a full run with three retries); a 404
response is returned immediately on attempt 0 with no delays slept; and
the error the caller builds from a 404 is classified as a server error
with retryable false. -/
theorem c5_retry_and_classification :
    (backoffDelay 1 = 1000 ∧ backoffDelay 2 = 2000 ∧ backoffDelay 3 = 4000) ∧
    (∀ i, 4 ≤ i → backoffDelay i = 8000) ∧
    (∀ rest i maxRetries delays status, 500 ≤ status → i < maxRetries →
      fetchWithRetryGo (FetchOutcome.resp status :: rest) i maxRetries delays =
        fetchWithRetryGo rest (i + 1) maxRetries
          (if 0 < i then delays ++ [backoffDelay i] else delays)) ∧
    (fetchWithRetry (List.replicate 4 (FetchOutcome.resp 500)) 3 =
      ([1000, 2000, 4000], FetchResult.ok 500)) ∧
    (∀ rest maxRetries, fetchWithRetry (FetchOutcome.resp 404 :: rest) maxRetries =
      ([], FetchResult.ok 404)) ∧
    (createApiError ⟨"Error", "HTTP 404 Not Found"⟩ true =
      ⟨ErrType.server, "Bad request. Please check your input.", false⟩) := by
  refine ⟨by decide, ?_, ?_, by decide, ?_, by decide⟩
  · intro i hi
    unfold backoffDelay
    have h8 : (8:ℕ) ≤ 2 ^ (i - 1) := by
      calc (8:ℕ) = 2 ^ 3 := by norm_num
        _ ≤ 2 ^ (i - 1) := Nat.pow_le_pow_right (by norm_num) (by omega)
    have h : (8000:ℕ) ≤ 1000 * 2 ^ (i - 1) := by
      calc (8000:ℕ) = 1000 * 8 := by norm_num
        _ ≤ 1000 * 2 ^ (i - 1) := Nat.mul_le_mul_left 1000 h8
    exact min_eq_right h
  · intro rest i maxRetries delays status h1 h2
    simp only [fetchWithRetryGo]
    rw [if_pos ⟨h1, h2⟩]
  · intro rest maxRetries
    simp only [fetchWithRetry, fetchWithRetryGo]
    rw [if_neg (by intro h; exact absurd h.1 (by decide))]
    simp

/-- C5 (witness): the capped backoff at attempt 5 and the one-step retry
rule applied to a concrete 503 outcome at attempt 0 of 2. -/
theorem c5_witness :
    (4 ≤ 5 ∧ backoffDelay 5 = 8000) ∧
    (500 ≤ 503 ∧ 0 < 2) ∧
    fetchWithRetryGo [FetchOutcome.resp 503, FetchOutcome.resp 200] 0 2 [] =
      fetchWithRetryGo [FetchOutcome.resp 200] 1 2 [] := by
  refine ⟨⟨by decide, c5_retry_and_classification.2.1 5 (by decide)⟩, ⟨by decide, by decide⟩, ?_⟩
  have h := c5_retry_and_classification.2.2.1 [FetchOutcome.resp 200] 0 2 [] 503 (by decide) (by decide)
  simpa using h

/-- One answered turn changes the history length to min(previous, 49) + 2:
the user append keeps only the most recent 49 entries before adding the
user turn, and the following assistant append is unchecked. -/
theorem chatRound_length (msgs : List ChatMessage) (answer : String) (resp : QuestionResp) :
    (chatRound msgs answer resp).length = min msgs.length 49 + 2 := by
  unfold chatRound sliceLast
  by_cases hq : questionTruthy resp = true
  · simp [hq, List.length_append, List.length_drop]
    omega
  · simp [hq, List.length_append, List.length_drop]
    omega

/-- Any sequence of answered turns keeps the history at 51 entries or
fewer, from any starting history of at most 51 entries. -/
theorem chatFold_le (rounds : List (String × QuestionResp)) :
    ∀ msgs : List ChatMessage, msgs.length ≤ 51 →
      (rounds.foldl (fun ms r => chatRound ms r.1 r.2) msgs).length ≤ 51 := by
  induction rounds with
  | nil => intro msgs h; simpa using h
  | cons r rs ih =>
    intro msgs h
    simp only [List.foldl_cons]
    apply ih
    rw [chatRound_length]
    omega

/-- C6 (amended): the conversation history is bounded by 51 turns, not 50:
the cap is enforced only at the user append, which keeps the most recent
49 turns (a suffix of the history, so the oldest turns are the ones
dropped) before appending the user turn, and the assistant turn appended
afterwards is unchecked, so a full session can momentarily hold 51
turns. -/
theorem c6_history_amended :
    (∀ msgs answer resp, (chatRound msgs answer resp).length = min msgs.length 49 + 2) ∧
    (∀ msgs answer resp, (chatRound msgs answer resp).length ≤ 51) ∧
    (∀ msgs : List ChatMessage, List.IsSuffix (sliceLast 49 msgs) msgs) ∧
    (∀ firstQ rounds, (chatSession firstQ rounds).length ≤ 51) := by
  refine ⟨chatRound_length, ?_, ?_, ?_⟩
  · intro msgs a r
    rw [chatRound_length]
    omega
  · intro msgs
    exact List.drop_suffix _ _
  · intro f rounds
    unfold chatSession
    exact chatFold_le rounds _ (by simp)

/-- Twenty-five answered question rounds, enough to saturate the cap. -/
def longRounds : List (String × QuestionResp) :=
  List.replicate 25 ("my answer", ⟨some "next question", []⟩)

/-- C6 (counterexample): after the twenty-fifth answered round of a
session the history holds 51 turns, contradicting the claimed bound of at
most 50 at every point. -/
theorem c6_history_counterexample :
    (chatSession "first question" longRounds).length = 51 ∧
    ¬((chatSession "first question" longRounds).length ≤ 50) := by
  have h : (chatSession "first question" longRounds).length = 51 := rfl
  exact ⟨h, by rw [h]; omega⟩

/-- A state that has just entered the Refinement step. -/
def refineEntryState : WState := {initState with step := Step.refinement}

/-- C7: retreating from Refinement returns to Settings, clears the
conversation history and resets the skip, question-fetch-failed and
has-attempted-fetch flags, while leaving the style, custom style name,
keyword, length, tone, language and call-to-action selections unchanged;
advancing again re-enters Refinement with an empty history. -/
theorem c7_back_from_refinement (s : WState) (h : s.step = Step.refinement) :
    (handleBack s).step = Step.settings ∧
    (handleBack s).chatMessages = [] ∧
    (handleBack s).skipRefinement = false ∧
    (handleBack s).questionFetchFailed = false ∧
    (handleBack s).hasAttemptedQuestionFetch = false ∧
    (handleBack s).selectedStyle = s.selectedStyle ∧
    (handleBack s).customStyleName = s.customStyleName ∧
    (handleBack s).keyword = s.keyword ∧
    (handleBack s).scriptLength = s.scriptLength ∧
    (handleBack s).selectedTone = s.selectedTone ∧
    (handleBack s).selectedLanguage = s.selectedLanguage ∧
    (handleBack s).ctaInclusion = s.ctaInclusion ∧
    (handleNext (handleBack s)).step = Step.refinement ∧
    (handleNext (handleBack s)).chatMessages = [] := by
  simp [handleBack, handleNext, h]

/-- C7 (witness): the retreat-and-re-enter facts at a concrete state in
the Refinement step. -/
theorem c7_witness :
    refineEntryState.step = Step.refinement ∧
    (handleBack refineEntryState).chatMessages = [] ∧
    (handleNext (handleBack refineEntryState)).step = Step.refinement ∧
    (handleNext (handleBack refineEntryState)).chatMessages = [] :=
  ⟨rfl, (c7_back_from_refinement refineEntryState rfl).2.1,
   (c7_back_from_refinement refineEntryState rfl).2.2.2.2.2.2.2.2.2.2.2.2.1,
   (c7_back_from_refinement refineEntryState rfl).2.2.2.2.2.2.2.2.2.2.2.2.2⟩

/-- C8: a failed or timed-out question fetch degrades to a null-question
response; the first-question effect then leaves apiError untouched, shows
the static fallback assistant message telling the user to skip, sets the
question-fetch-failed flag, records the attempt, and a repeated run of the
effect for the same Refinement entry changes nothing. -/
theorem c8_refine_failure_degrades (s : WState) (e : JsError)
    (h1 : s.step = Step.refinement) (h2 : s.chatMessages.length = 0)
    (h3 : s.isLoading = false) (h4 : s.hasAttemptedQuestionFetch = false) :
    questionFetchResult (Except.error e) = ⟨none, []⟩ ∧
    (effect35 s (Except.error e)).apiError = s.apiError ∧
    (effect35 s (Except.error e)).chatMessages = [aiMsg fallbackText []] ∧
    (effect35 s (Except.error e)).questionFetchFailed = true ∧
    (effect35 s (Except.error e)).hasAttemptedQuestionFetch = true ∧
    (∀ env2, effect35 (effect35 s (Except.error e)) env2 = effect35 s (Except.error e)) := by
  refine ⟨rfl, ?_, ?_, ?_, ?_, ?_⟩
  · simp [effect35, questionFetchResult, h1, h2, h3, h4]
  · simp [effect35, questionFetchResult, h1, h2, h3, h4]
  · simp [effect35, questionFetchResult, h1, h2, h3, h4]
  · simp [effect35, questionFetchResult, h1, h2, h3, h4]
  · intro env2
    simp [effect35, questionFetchResult, h1, h2, h3, h4]

/-- C8 (witness): the degradation facts at a concrete entry state and a
concrete network failure. -/
theorem c8_witness :
    (refineEntryState.step = Step.refinement ∧ refineEntryState.chatMessages.length = 0 ∧
     refineEntryState.isLoading = false ∧ refineEntryState.hasAttemptedQuestionFetch = false) ∧
    (effect35 refineEntryState (Except.error ⟨"TypeError", "Failed to fetch"⟩)).chatMessages =
      [aiMsg fallbackText []] ∧
    (effect35 refineEntryState (Except.error ⟨"TypeError", "Failed to fetch"⟩)).apiError =
      refineEntryState.apiError :=
  ⟨⟨rfl, rfl, rfl, rfl⟩,
   (c8_refine_failure_degrades refineEntryState ⟨"TypeError", "Failed to fetch"⟩
     rfl rfl rfl rfl).2.2.1,
   (c8_refine_failure_degrades refineEntryState ⟨"TypeError", "Failed to fetch"⟩
     rfl rfl rfl rfl).2.1⟩

/-- C9: the restore effect never repopulates state from a snapshot with a
missing timestamp, nor from one whose age is one hour (3600000
milliseconds) or more; in both cases the fresh defaults are kept. -/
theorem c9_restore_freshness (sn : Snapshot) (now : Int) (s : WState) :
    (sn.timestamp = none → restoreSession (some sn) now s = s) ∧
    (∀ ts, sn.timestamp = some ts → 3600000 ≤ now - ts → restoreSession (some sn) now s = s) := by
  constructor
  · intro h
    simp [restoreSession, h]
  · intro ts h hage
    have hnl : ¬(now - ts < 3600000) := not_lt.mpr hage
    simp [restoreSession, h, hnl]

/-- A concrete snapshot captured at time 5. -/
def sampleSnapshot : Snapshot :=
  ⟨some 5, Step.settings, "hook", "", "", "cats", 60, "English", "Casual", false, []⟩

/-- C9 (witness): restoring the concrete snapshot exactly one hour after
its capture leaves the fresh defaults untouched. -/
theorem c9_witness :
    (sampleSnapshot.timestamp = some 5 ∧ (3600000:Int) ≤ 3600005 - 5) ∧
    restoreSession (some sampleSnapshot) 3600005 initState = initState :=
  ⟨⟨rfl, by decide⟩, (c9_restore_freshness sampleSnapshot 3600005 initState).2 5 rfl (by decide)⟩

/-- A full session that reaches Result via confirmed skip, receives a
generated script, retreats (Result steps back to Settings, which keeps the
result), advances into Refinement again, completes the chat, and so enters
Result a second time while the previous result is still present; the final
event is the generation-trigger effect for that second entry. -/
def trace3 : List Event :=
  [Event.setStyle "hook", Event.next,
   Event.setKeyword "space travel", Event.next,
   Event.setTone "Casual", Event.setLanguage "English", Event.next,
   Event.skipClick, Event.confirmSkip,
   Event.step4Effect,
   Event.resultArrived (JsonVal.str "old script"),
   Event.scoreEffect,
   Event.back,
   Event.next,
   Event.refineFetch (Except.ok ⟨some "Who is the audience", []⟩),
   Event.chatAnswer "general public" ⟨none, []⟩,
   Event.step4Effect]

/-- C3 (counterexample): at the end of trace3 the wizard has just entered
Result from Refinement via chat completion, yet the prior generation
result and quality score are still present, no request is loading, and
running the generation-trigger effect changes nothing: the gate sees the
surviving result, so nothing is cleared and no fresh request starts. -/
theorem c3_result_entry_counterexample :
    (run trace3).step = Step.result ∧
    (run trace3).apiResults = some (JsonVal.str "old script") ∧
    (run trace3).scoreData = some (computeScores "old script" 45 false) ∧
    (run trace3).isLoading = false ∧
    applyEvent (run trace3) Event.step4Effect = run trace3 :=
  ⟨rfl, rfl, rfl, rfl, rfl⟩

/-- C3 (amended): the generation trigger fires only when the wizard is at
Result with a falsy result and no request loading; when it fires it starts
exactly one fresh request, clearing the previous error, result and score,
and running the effect again changes nothing (the request is already
loading); when a result is present or a request is loading the effect does
nothing, so a result surviving a retreat from Result is not cleared on
re-entry. -/
theorem c3_result_entry_amended (s : WState)
    (h1 : s.step = Step.result) (h2 : jsFalsyOpt s.apiResults = true) (h3 : s.isLoading = false) :
    applyEvent s Event.step4Effect = startFinalFetch s ∧
    (applyEvent s Event.step4Effect).isLoading = true ∧
    (applyEvent s Event.step4Effect).apiResults = none ∧
    (applyEvent s Event.step4Effect).scoreData = none ∧
    (applyEvent s Event.step4Effect).apiError = none ∧
    applyEvent (applyEvent s Event.step4Effect) Event.step4Effect = applyEvent s Event.step4Effect ∧
    (∀ t : WState, t.isLoading = true → applyEvent t Event.step4Effect = t) ∧
    (∀ t : WState, jsFalsyOpt t.apiResults = false → applyEvent t Event.step4Effect = t) := by
  refine ⟨?_, ?_, ?_, ?_, ?_, ?_, ?_, ?_⟩
  · simp [applyEvent, startFinalFetch, h1, h2, h3]
  · simp [applyEvent, startFinalFetch, h1, h2, h3]
  · simp [applyEvent, startFinalFetch, h1, h2, h3]
  · simp [applyEvent, startFinalFetch, h1, h2, h3]
  · simp [applyEvent, startFinalFetch, h1, h2, h3]
  · simp [applyEvent, startFinalFetch, h1, h2, h3]
  · intro t ht
    simp [applyEvent, ht]
  · intro t ht
    simp [applyEvent, ht]

/-- A fresh entry into Result with no result yet. -/
def staleResultState : WState := {initState with step := Step.result}

/-- C3 (witness): the amended statement applied to a concrete state that
enters Result with no result and no loading request. -/
theorem c3_witness :
    (staleResultState.step = Step.result ∧ jsFalsyOpt staleResultState.apiResults = true ∧
     staleResultState.isLoading = false) ∧
    (applyEvent staleResultState Event.step4Effect).isLoading = true ∧
    (applyEvent staleResultState Event.step4Effect).apiError = none :=
  ⟨⟨rfl, rfl, rfl⟩, (c3_result_entry_amended staleResultState rfl rfl rfl).2.1,
   (c3_result_entry_amended staleResultState rfl rfl rfl).2.2.2.2.1⟩

/-- A session that reaches Result through Style, Topic, Settings,
Refinement entry and confirmed skip. -/
def trace4 : List Event :=
  [Event.setStyle "hook", Event.next, Event.setKeyword "cats", Event.next,
   Event.setTone "Casual", Event.setLanguage "English", Event.next,
   Event.skipClick, Event.confirmSkip]

/-- C4 (counterexample): at the reachable state in Result, retreat lands
on Settings, two positions back in the five-step order, so it does not
move back exactly one step (one step back from Result would be
Refinement). -/
theorem c4_step_counterexample :
    (run trace4).step = Step.result ∧
    (handleBack (run trace4)).step = Step.settings ∧
    stepIdx (handleBack (run trace4)).step + 1 ≠ stepIdx (run trace4).step :=
  ⟨rfl, rfl, by decide⟩

/-- C4 (amended): advance moves forward by at most one position in the
order Style, Topic, Settings, Refinement, Result and never skips a step;
Refinement is entered only from Settings (never by the increment branch);
the generic next action does nothing at Refinement; retreat never moves
before Style (the numeric step stays at least 1); retreat moves back at
most one position from every step except Result, where it skips
Refinement and lands on Settings, two positions back. -/
theorem c4_step_machine_amended (s : WState) :
    (stepIdx (handleNext s).step = stepIdx s.step ∨
     stepIdx (handleNext s).step = stepIdx s.step + 1) ∧
    ((handleNext s).step = Step.refinement → s.step = Step.settings ∨ s.step = Step.refinement) ∧
    (s.step = Step.refinement → handleNext s = s) ∧
    (1 ≤ (handleBack s).step.toRat) ∧
    (s.step ≠ Step.result → stepIdx s.step ≤ stepIdx (handleBack s).step + 1 ∧
      stepIdx (handleBack s).step ≤ stepIdx s.step) ∧
    (s.step = Step.result → (handleBack s).step = Step.settings ∧
      stepIdx (handleBack s).step + 2 = stepIdx s.step) := by
  rcases s with ⟨st, f1, f2, f3, f4, f5, f6, f7, f8, f9, f10, f11, f12, f13, f14, f15, f16, f17, f18⟩
  cases st <;> simp [handleNext, handleBack, stepPlusOne, stepMinusOne, stepIdx, Step.toRat]

/-- C4 (witness): the amended statement applied at the Refinement state,
discharging the implications that carry hypotheses. -/
theorem c4_witness :
    refineEntryState.step = Step.refinement ∧ handleNext refineEntryState = refineEntryState ∧
    (refineEntryState.step ≠ Step.result ∧
      stepIdx refineEntryState.step ≤ stepIdx (handleBack refineEntryState).step + 1) :=
  ⟨rfl, (c4_step_machine_amended refineEntryState).2.2.1 rfl,
   by decide, ((c4_step_machine_amended refineEntryState).2.2.2.2.1 (by decide)).1⟩
